import Mathlib

/-!
Verification of the EAGL guest graphics-context virtualization and
frame-presentation engine (src/frameworks/opengles/eagl.rs).

The embedding translates the Rust source into Lean:
* native GPU state is a record of the state slots the engine reads or writes
  (`GLState`), with matrix stacks as lists (head = top of stack);
* every GL command the engine issues is also recorded in an event trace
  (`GLEvent`), so ordering properties (e.g. what happens after the buffer
  swap) can be stated;
* the external quad-drawing collaborator `present_frame` (gles/present.rs,
  outside this repository's sources) is over-approximated by a `FrameEffect`:
  an arbitrary assignment to every state slot the drawing code may touch
  (the slots enumerated by the snapshot), leaving the slots it cannot touch
  (renderbuffer binding, framebuffer binding, name allocator) unchanged;
* the object-runtime's retain/release, the layer-compositing collaborators
  (find_fullscreen_eagl_layer, get_pixels_vec_for_presenting, present_pixels)
  and the window are modelled at their interface boundary as environment
  fields and ghost counters;
* Rust `assert!` failures (aborts) are modelled as `Option.none` results.
-/

/-! ## OpenGL ES 1.1 constants (crate::gles::gles11_raw) -/

def GL_RENDERBUFFER_OES : Nat := 0x8D41
def GL_FRAMEBUFFER_OES : Nat := 0x8D40
def GL_RENDERBUFFER_BINDING_OES : Nat := 0x8CA7
def GL_FRAMEBUFFER_BINDING_OES : Nat := 0x8CA6
def GL_RENDERBUFFER_WIDTH_OES : Nat := 0x8D42
def GL_RENDERBUFFER_HEIGHT_OES : Nat := 0x8D43
def GL_COLOR_ATTACHMENT0_OES : Nat := 0x8CE0
def GL_TEXTURE_2D : Nat := 0x0DE1
def GL_TEXTURE_BINDING_2D : Nat := 0x8069
def GL_MATRIX_MODE : Nat := 0x0BA0
def GL_MODELVIEW : Nat := 0x1700
def GL_PROJECTION : Nat := 0x1701
def GL_TEXTURE : Nat := 0x1702
def GL_CURRENT_COLOR : Nat := 0x0B00
def GL_VIEWPORT : Nat := 0x0BA2
def GL_COLOR_CLEAR_VALUE : Nat := 0x0C22
def GL_ARRAY_BUFFER : Nat := 0x8892
def GL_ARRAY_BUFFER_BINDING : Nat := 0x8894
def GL_VERTEX_ARRAY_BUFFER_BINDING : Nat := 0x8896
def GL_VERTEX_ARRAY_SIZE : Nat := 0x807A
def GL_VERTEX_ARRAY_TYPE : Nat := 0x807B
def GL_VERTEX_ARRAY_STRIDE : Nat := 0x807C
def GL_VERTEX_ARRAY_POINTER : Nat := 0x808E
def GL_TEXTURE_COORD_ARRAY_BUFFER_BINDING : Nat := 0x889A
def GL_TEXTURE_COORD_ARRAY_SIZE : Nat := 0x8088
def GL_TEXTURE_COORD_ARRAY_TYPE : Nat := 0x8089
def GL_TEXTURE_COORD_ARRAY_STRIDE : Nat := 0x808A
def GL_TEXTURE_COORD_ARRAY_POINTER : Nat := 0x8092
def GL_BLEND_SRC : Nat := 0x0BE1
def GL_BLEND_DST : Nat := 0x0BE0
def GL_RGB : Nat := 0x1907
def GL_RGBA8_OES : Nat := 0x8058
def GL_LINEAR : Nat := 0x2601

/-- EAGL drawable-property string constants (kEAGLColorFormat…). -/
def kEAGLColorFormatRGBA8 : String := "RGBA8"

def kEAGLColorFormatRGB565 : String := "RGB565"

def kEAGLRenderingAPIOpenGLES1 : Nat := 1

/-! ## Native GPU state -/

/-- An RGBA float vector (GL_CURRENT_COLOR / GL_COLOR_CLEAR_VALUE).
Component values are modelled exactly (the engine only round-trips them and
writes the constants 0 and 1), so an integer carrier suffices. -/
structure Color4 where
  r : Int
  g : Int
  b : Int
  a : Int
deriving DecidableEq, Repr

/-- Client vertex-attribute array state: the buffer binding latched by the
gl*Pointer call, plus size, type, stride and pointer. -/
structure ArrayPointerState where
  binding : Nat
  size : Nat
  typ : Nat
  stride : Nat
  pointer : Nat
deriving DecidableEq, Repr

/-- The native GPU state slots read or written by eagl.rs.

Matrix stacks are lists whose head is the current (top) matrix; individual
matrices are opaque tokens (Nat).  `arrays_enabled` / `capabilities_enabled`
are the fixed enumerations gles1_on_gl2::ARRAYS / ::CAPABILITIES, indexed
positionally.  `next_name` is the driver's object-name allocator and
`read_pixels_count` is a ghost counter of glReadPixels calls. -/
structure GLState where
  renderbuffer_binding : Nat
  framebuffer_binding : Nat
  texture_binding_2d : Nat
  array_buffer_binding : Nat
  arrays_enabled : List Bool
  capabilities_enabled : List Bool
  matrix_mode : Nat
  modelview_stack : List Nat
  projection_stack : List Nat
  texture_stack : List Nat
  current_color : Color4
  viewport : Int × Int × Int × Int
  clear_color : Color4
  vertex_array : ArrayPointerState
  tex_coord_array : ArrayPointerState
  blend_src : Nat
  blend_dst : Nat
  renderbuffer_width : Nat
  renderbuffer_height : Nat
  next_name : Nat
  read_pixels_count : Nat
deriving DecidableEq, Repr

/-- One GL command (or the window-swap call) issued by the engine, as recorded
in the event trace.  Array/capability enumeration entries are identified by
their position in the fixed table. -/
inductive GLEvent where
  | GetIntegerv (pname : Nat)
  | GetBooleanv (idx : Nat)
  | GetFloatv (pname : Nat)
  | GetPointerv (pname : Nat)
  | GetRenderbufferParameteriv (pname : Nat)
  | GenFramebuffers (name : Nat)
  | BindFramebufferOES (name : Nat)
  | FramebufferRenderbuffer (renderbuffer : Nat)
  | GenTextures (name : Nat)
  | BindTexture (name : Nat)
  | CopyTexImage2D (internalformat : Nat) (width height : Nat)
  | TexParameteri
  | DeleteFramebuffers (name : Nat)
  | DeleteTextures (name : Nat)
  | DisableClientState (idx : Nat)
  | EnableClientState (idx : Nat)
  | Disable (idx : Nat)
  | Enable (idx : Nat)
  | MatrixMode (mode : Nat)
  | PushMatrix
  | PopMatrix
  | LoadIdentity
  | Color4f (c : Color4)
  | Viewport (v : Int × Int × Int × Int)
  | ClearColor (c : Color4)
  | BindBuffer (name : Nat)
  | VertexPointer
  | TexCoordPointer
  | BlendFunc (sfactor dfactor : Nat)
  | ReadPixels (width height : Nat)
  | RenderbufferStorage (internalformat : Nat) (width height : Nat)
  | DrawFrame
  | SwapWindow (framebuffer_binding : Nat)
  | GetError
deriving DecidableEq, Repr

/-! ## The external quad-drawing collaborator -/

/-- Over-approximation of the state effect of the external `present_frame`
collaborator (gles/present.rs): it may write any of the snapshot-enumerated
state slots (array enables, capability flags, matrix mode, the tops of the
three matrix stacks, current color, viewport, clear color, buffer binding,
vertex/texcoord array state, blend factors, bound 2D texture), with arbitrary
values.  It draws to whatever framebuffer is bound and never rebinds the
framebuffer or renderbuffer, reads pixels, or allocates object names. -/
structure FrameEffect where
  matrix_mode' : Nat
  mv_top : Nat
  p_top : Nat
  t_top : Nat
  color' : Color4
  viewport' : Int × Int × Int × Int
  clear_color' : Color4
  array_buffer' : Nat
  vertex_array' : ArrayPointerState
  tex_coord_array' : ArrayPointerState
  blend_src' : Nat
  blend_dst' : Nat
  texture_2d' : Nat
  arrays' : List Bool
  capabilities' : List Bool
deriving DecidableEq, Repr

/-- Replace the top element of a matrix stack. -/
def setTop (v : Nat) (l : List Nat) : List Nat :=
  v :: l.tail

/-- Overwrite the entries of a fixed-size enable table positionally with the
values of `new`, keeping the table's length (entries beyond `new` are kept). -/
def overwriteFlags (new cur : List Bool) : List Bool :=
  (new.zipWith (fun n _ => n) cur) ++ cur.drop new.length

/-- Apply a `FrameEffect` to the GL state: write every slot the external
drawing code may touch, leave all other slots unchanged. -/
def applyFrameEffect (e : FrameEffect) (s : GLState) : GLState :=
  { s with
    matrix_mode := e.matrix_mode'
    modelview_stack := setTop e.mv_top s.modelview_stack
    projection_stack := setTop e.p_top s.projection_stack
    texture_stack := setTop e.t_top s.texture_stack
    current_color := e.color'
    viewport := e.viewport'
    clear_color := e.clear_color'
    array_buffer_binding := e.array_buffer'
    vertex_array := e.vertex_array'
    tex_coord_array := e.tex_coord_array'
    blend_src := e.blend_src'
    blend_dst := e.blend_dst'
    texture_binding_2d := e.texture_2d'
    arrays_enabled := overwriteFlags e.arrays' s.arrays_enabled
    capabilities_enabled := overwriteFlags e.capabilities' s.capabilities_enabled }

/-! ## Trace chunks for the backup/restore loops of present_renderbuffer -/

/-- Trace of the loop that backs up and disables every client array
(eagl.rs lines 438-445): per table entry, a GetBooleanv then a
DisableClientState. -/
def disableClientArraysTrace (n : Nat) : List GLEvent :=
  (List.range n).flatMap (fun i => [GLEvent.GetBooleanv i, GLEvent.DisableClientState i])

/-- Trace of the loop that backs up and disables every capability
(eagl.rs lines 446-456). -/
def disableCapabilitiesTrace (n : Nat) : List GLEvent :=
  (List.range n).flatMap (fun i => [GLEvent.GetBooleanv i, GLEvent.Disable i])

/-- Trace of the loop that restores the client-array enables from the backup
(eagl.rs lines 500-506). -/
def restoreClientArraysTrace (old : List Bool) : List GLEvent :=
  old.enum.map (fun p => cond p.2 (GLEvent.EnableClientState p.1) (GLEvent.DisableClientState p.1))

/-- Trace of the loop that restores the capabilities from the backup
(eagl.rs lines 507-516). -/
def restoreCapabilitiesTrace (old : List Bool) : List GLEvent :=
  old.enum.map (fun p => cond p.2 (GLEvent.Enable p.1) (GLEvent.Disable p.1))

/-! ## present_renderbuffer (eagl.rs lines 381-563)

Copies the bound renderbuffer to a texture, draws it to the default
framebuffer via `present_frame`, swaps the window buffers, and attempts to
restore every state slot it touched.  The function is split into the source's
phases: the copy-to-texture phase, the state backup, the restore, and the
final swap/rebind, with the backed-up values collected in `Snapshot`
(mirroring the `old_*` locals of the source). -/

/-- The stack-allocated bundle of saved state slots (the `old_*` locals of
`present_renderbuffer`, eagl.rs lines 438-486). -/
structure Snapshot where
  old_arrays : List Bool
  old_capabilities : List Bool
  old_matrix_mode : Nat
  old_color : Color4
  old_viewport : Int × Int × Int × Int
  old_clear_color : Color4
  old_array_buffer : Nat
  old_vertex_array_binding : Nat
  old_vertex_array_size : Nat
  old_vertex_array_type : Nat
  old_vertex_array_stride : Nat
  old_vertex_array_pointer : Nat
  old_tex_coord_array_binding : Nat
  old_tex_coord_array_size : Nat
  old_tex_coord_array_type : Nat
  old_tex_coord_array_stride : Nat
  old_tex_coord_array_pointer : Nat
  old_blend_sfactor : Nat
  old_blend_dfactor : Nat
deriving DecidableEq, Repr

/-- Copy phase (eagl.rs lines 388-432): query the bound renderbuffer and its
size, create a temporary framebuffer, attach the renderbuffer, copy its
contents into a fresh texture, then delete the temporary framebuffer (which
resets the framebuffer binding to the default framebuffer 0).  Returns the
state, the temporary texture's name, and the trace. -/
def copyToTexturePhase (s : GLState) : GLState × Nat × List GLEvent :=
  let renderbuffer := s.renderbuffer_binding
  let width := s.renderbuffer_width
  let height := s.renderbuffer_height
  let src_framebuffer := s.next_name
  let s1 : GLState := { s with next_name := s.next_name + 1 }
  let s2 : GLState := { s1 with framebuffer_binding := src_framebuffer }
  let texture := s2.next_name
  let s3 : GLState := { s2 with next_name := s2.next_name + 1 }
  let s4 : GLState := { s3 with texture_binding_2d := texture }
  -- DeleteFramebuffersOES: deleting the bound framebuffer resets the binding
  -- to the default framebuffer (0).
  let s5 : GLState := { s4 with framebuffer_binding := if s4.framebuffer_binding = src_framebuffer then 0 else s4.framebuffer_binding }
  (s5, texture,
    [GLEvent.GetIntegerv GL_RENDERBUFFER_BINDING_OES,
     GLEvent.GetRenderbufferParameteriv GL_RENDERBUFFER_WIDTH_OES,
     GLEvent.GetRenderbufferParameteriv GL_RENDERBUFFER_HEIGHT_OES,
     GLEvent.GetIntegerv GL_FRAMEBUFFER_BINDING_OES,
     GLEvent.GetIntegerv GL_TEXTURE_BINDING_2D,
     GLEvent.GenFramebuffers src_framebuffer,
     GLEvent.BindFramebufferOES src_framebuffer,
     GLEvent.FramebufferRenderbuffer renderbuffer,
     GLEvent.GenTextures texture,
     GLEvent.BindTexture texture,
     GLEvent.CopyTexImage2D GL_RGB width height,
     GLEvent.TexParameteri,
     GLEvent.DeleteFramebuffers src_framebuffer])

/-- Backup phase (eagl.rs lines 438-486): save every state slot the quad
drawing will touch and reset it (arrays and capabilities disabled, an
identity matrix pushed on each stack, color set to opaque white); the
remaining slots are saved without being reset.  Each `old_*` value is read
before its slot is modified and the touched slots are pairwise distinct, so
the snapshot equals the phase-entry values. -/
def backupPhase (s : GLState) : GLState × Snapshot × List GLEvent :=
  let snap : Snapshot :=
    { old_arrays := s.arrays_enabled
      old_capabilities := s.capabilities_enabled
      old_matrix_mode := s.matrix_mode
      old_color := s.current_color
      old_viewport := s.viewport
      old_clear_color := s.clear_color
      old_array_buffer := s.array_buffer_binding
      old_vertex_array_binding := s.vertex_array.binding
      old_vertex_array_size := s.vertex_array.size
      old_vertex_array_type := s.vertex_array.typ
      old_vertex_array_stride := s.vertex_array.stride
      old_vertex_array_pointer := s.vertex_array.pointer
      old_tex_coord_array_binding := s.tex_coord_array.binding
      old_tex_coord_array_size := s.tex_coord_array.size
      old_tex_coord_array_type := s.tex_coord_array.typ
      old_tex_coord_array_stride := s.tex_coord_array.stride
      old_tex_coord_array_pointer := s.tex_coord_array.pointer
      old_blend_sfactor := s.blend_src
      old_blend_dfactor := s.blend_dst }
  let s1 : GLState := { s with arrays_enabled := s.arrays_enabled.map (fun _ => false) }
  let s2 : GLState := { s1 with capabilities_enabled := s1.capabilities_enabled.map (fun _ => false) }
  -- push loop: for each stack, PushMatrix then LoadIdentity puts an identity
  -- matrix on top of the unchanged stack; the loop leaves GL_TEXTURE as the
  -- matrix mode.
  let s3 : GLState := { s2 with
    matrix_mode := GL_TEXTURE
    modelview_stack := 0 :: s2.modelview_stack
    projection_stack := 0 :: s2.projection_stack
    texture_stack := 0 :: s2.texture_stack }
  let s4 : GLState := { s3 with current_color := ⟨1, 1, 1, 1⟩ }
  (s4, snap,
    disableClientArraysTrace s.arrays_enabled.length ++
    disableCapabilitiesTrace s.capabilities_enabled.length ++
    [GLEvent.GetIntegerv GL_MATRIX_MODE,
     GLEvent.MatrixMode GL_MODELVIEW, GLEvent.PushMatrix, GLEvent.LoadIdentity,
     GLEvent.MatrixMode GL_PROJECTION, GLEvent.PushMatrix, GLEvent.LoadIdentity,
     GLEvent.MatrixMode GL_TEXTURE, GLEvent.PushMatrix, GLEvent.LoadIdentity,
     GLEvent.GetFloatv GL_CURRENT_COLOR,
     GLEvent.Color4f ⟨1, 1, 1, 1⟩,
     GLEvent.GetIntegerv GL_VIEWPORT,
     GLEvent.GetFloatv GL_COLOR_CLEAR_VALUE,
     GLEvent.GetIntegerv GL_ARRAY_BUFFER_BINDING,
     GLEvent.GetIntegerv GL_VERTEX_ARRAY_BUFFER_BINDING,
     GLEvent.GetIntegerv GL_VERTEX_ARRAY_SIZE,
     GLEvent.GetIntegerv GL_VERTEX_ARRAY_TYPE,
     GLEvent.GetIntegerv GL_VERTEX_ARRAY_STRIDE,
     GLEvent.GetPointerv GL_VERTEX_ARRAY_POINTER,
     GLEvent.GetIntegerv GL_TEXTURE_COORD_ARRAY_BUFFER_BINDING,
     GLEvent.GetIntegerv GL_TEXTURE_COORD_ARRAY_SIZE,
     GLEvent.GetIntegerv GL_TEXTURE_COORD_ARRAY_TYPE,
     GLEvent.GetIntegerv GL_TEXTURE_COORD_ARRAY_STRIDE,
     GLEvent.GetPointerv GL_TEXTURE_COORD_ARRAY_POINTER,
     GLEvent.GetIntegerv GL_BLEND_SRC,
     GLEvent.GetIntegerv GL_BLEND_DST])

/-- Restore phase (eagl.rs lines 500-552): write every snapshotted slot back.
Exactly as in the source, the matrix mode is written back BEFORE the pop
loop (lines 517-521), so the pop loop leaves the matrix mode set to
GL_TEXTURE.  Each gl*Pointer call latches the current GL_ARRAY_BUFFER
binding, so the saved per-array buffer is bound before each pointer call and
the independent GL_ARRAY_BUFFER binding is restored last. -/
def restorePhase (snap : Snapshot) (s : GLState) : GLState × List GLEvent :=
  let s1 : GLState := { s with arrays_enabled := overwriteFlags snap.old_arrays s.arrays_enabled }
  let s2 : GLState := { s1 with capabilities_enabled := overwriteFlags snap.old_capabilities s1.capabilities_enabled }
  let s3 : GLState := { s2 with matrix_mode := snap.old_matrix_mode }
  let s4 : GLState := { s3 with
    matrix_mode := GL_TEXTURE
    modelview_stack := s3.modelview_stack.tail
    projection_stack := s3.projection_stack.tail
    texture_stack := s3.texture_stack.tail }
  let s5 : GLState := { s4 with
    current_color := snap.old_color
    viewport := snap.old_viewport
    clear_color := snap.old_clear_color }
  let s6 : GLState := { s5 with array_buffer_binding := snap.old_vertex_array_binding }
  let s7 : GLState := { s6 with vertex_array :=
    { binding := s6.array_buffer_binding
      size := snap.old_vertex_array_size
      typ := snap.old_vertex_array_type
      stride := snap.old_vertex_array_stride
      pointer := snap.old_vertex_array_pointer } }
  let s8 : GLState := { s7 with array_buffer_binding := snap.old_tex_coord_array_binding }
  let s9 : GLState := { s8 with tex_coord_array :=
    { binding := s8.array_buffer_binding
      size := snap.old_tex_coord_array_size
      typ := snap.old_tex_coord_array_type
      stride := snap.old_tex_coord_array_stride
      pointer := snap.old_tex_coord_array_pointer } }
  let s10 : GLState := { s9 with array_buffer_binding := snap.old_array_buffer }
  let s11 : GLState := { s10 with blend_src := snap.old_blend_sfactor, blend_dst := snap.old_blend_dfactor }
  (s11,
    restoreClientArraysTrace snap.old_arrays ++
    restoreCapabilitiesTrace snap.old_capabilities ++
    [GLEvent.MatrixMode snap.old_matrix_mode,
     GLEvent.MatrixMode GL_MODELVIEW, GLEvent.PopMatrix,
     GLEvent.MatrixMode GL_PROJECTION, GLEvent.PopMatrix,
     GLEvent.MatrixMode GL_TEXTURE, GLEvent.PopMatrix,
     GLEvent.Color4f snap.old_color,
     GLEvent.Viewport snap.old_viewport,
     GLEvent.ClearColor snap.old_clear_color,
     GLEvent.BindBuffer snap.old_vertex_array_binding,
     GLEvent.VertexPointer,
     GLEvent.BindBuffer snap.old_tex_coord_array_binding,
     GLEvent.TexCoordPointer,
     GLEvent.BindBuffer snap.old_array_buffer,
     GLEvent.BlendFunc snap.old_blend_sfactor snap.old_blend_dfactor])

def present_renderbuffer (e : FrameEffect) (s : GLState) : GLState × List GLEvent :=
  -- the framebuffer and 2D-texture bindings are saved before the copy phase
  -- binds its temporary objects (eagl.rs lines 393-394)
  let old_framebuffer := s.framebuffer_binding
  let old_texture_2d := s.texture_binding_2d
  let c := copyToTexturePhase s
  let texture := c.2.1
  let b := backupPhase c.1
  let snap := b.2.1
  -- draw the quad (present_frame, eagl.rs lines 489-494)
  let s1 := applyFrameEffect e b.1
  -- DeleteTextures: deleting the bound texture unbinds it (line 497)
  let s2 : GLState := { s1 with texture_binding_2d := if s1.texture_binding_2d = texture then 0 else s1.texture_binding_2d }
  let r := restorePhase snap s2
  let s3 := r.1
  -- swap the window buffers (the swap event records the framebuffer binding
  -- in effect at the moment of the swap, lines 554-556), then restore the
  -- remaining bindings and check the error flag (lines 558-562)
  let s4 : GLState := { s3 with texture_binding_2d := old_texture_2d }
  let s5 : GLState := { s4 with framebuffer_binding := old_framebuffer }
  (s5,
    c.2.2 ++ b.2.2 ++ [GLEvent.DrawFrame, GLEvent.DeleteTextures texture] ++ r.2 ++
    [GLEvent.SwapWindow s3.framebuffer_binding,
     GLEvent.BindTexture old_texture_2d,
     GLEvent.BindFramebufferOES old_framebuffer,
     GLEvent.GetError])

/-! ## read_renderbuffer (eagl.rs lines 319-373)

Reads the pixels of the bound renderbuffer back into host memory via a
temporary framebuffer, restoring the framebuffer binding afterwards. -/

structure ReadbackResult where
  gl : GLState
  events : List GLEvent
  width : Nat
  height : Nat
deriving DecidableEq, Repr

def read_renderbuffer (s : GLState) : ReadbackResult :=
  let renderbuffer := s.renderbuffer_binding
  let width := s.renderbuffer_width
  let height := s.renderbuffer_height
  let old_framebuffer := s.framebuffer_binding
  let src_framebuffer := s.next_name
  let s := { s with next_name := s.next_name + 1 }
  let s := { s with framebuffer_binding := src_framebuffer }
  let s := { s with read_pixels_count := s.read_pixels_count + 1 }
  -- DeleteFramebuffersOES resets the binding to the default framebuffer.
  let s := { s with framebuffer_binding := if s.framebuffer_binding = src_framebuffer then 0 else s.framebuffer_binding }
  let s := { s with framebuffer_binding := old_framebuffer }
  { gl := s
    events :=
      [GLEvent.GetIntegerv GL_RENDERBUFFER_BINDING_OES,
       GLEvent.GetRenderbufferParameteriv GL_RENDERBUFFER_WIDTH_OES,
       GLEvent.GetRenderbufferParameteriv GL_RENDERBUFFER_HEIGHT_OES,
       GLEvent.GetIntegerv GL_FRAMEBUFFER_BINDING_OES,
       GLEvent.GenFramebuffers src_framebuffer,
       GLEvent.BindFramebufferOES src_framebuffer,
       GLEvent.FramebufferRenderbuffer renderbuffer,
       GLEvent.ReadPixels width height,
       GLEvent.DeleteFramebuffers src_framebuffer,
       GLEvent.BindFramebufferOES old_framebuffer]
    width := width
    height := height }

/-! ## The EAGLContext host object and its environment -/

/-- Association-list lookup in the renderbuffer-to-drawable binding table
(HashMap<GLuint, id> in the source). -/
def lookupBinding (k : Nat) : List (Nat × Nat) → Option Nat
  | [] => none
  | (k', v) :: rest => if k' = k then some v else lookupBinding k rest

/-- Remove every entry with the given renderbuffer name (used to model
HashMap::insert's replacement of an existing entry). -/
def removeKey (k : Nat) (l : List (Nat × Nat)) : List (Nat × Nat) :=
  l.filter (fun p => p.1 ≠ k)

/-- Environment of a `presentRenderbuffer:` call: the context's binding
table, the result of the external `find_fullscreen_eagl_layer` collaborator
(0 = nil, i.e. no fullscreen layer), the GL state, and ghost records of the
layer-compositing collaborators: how many host-side pixel buffers were
obtained via `get_pixels_vec_for_presenting`, and the `present_pixels`
composition calls (drawable, width, height). -/
structure PresentEnv where
  bindings : List (Nat × Nat)
  fullscreen_layer : Nat
  gl : GLState
  pixel_vec_allocs : Nat
  composited : List (Nat × Nat × Nat)
deriving DecidableEq, Repr

/-- presentRenderbuffer: (eagl.rs lines 188-262).  `none` models the
`assert!(target == RENDERBUFFER_OES)` abort.  Otherwise returns the
guest-visible boolean, the updated environment and the GL trace.  The
`sync_context` calls only reconcile the native-current context and are
guest-invisible, so they have no effect on this state. -/
def presentRenderbuffer (target : Nat) (e : FrameEffect) (env : PresentEnv) :
    Option (Bool × PresentEnv × List GLEvent) :=
  if target = GL_RENDERBUFFER_OES then
    let renderbuffer := env.gl.renderbuffer_binding
    let q : List GLEvent := [GLEvent.GetIntegerv GL_RENDERBUFFER_BINDING_OES]
    match lookupBinding renderbuffer env.bindings with
    | none => some (false, env, q)
    | some drawable =>
      if drawable = env.fullscreen_layer then
        -- fast path: present the renderbuffer directly
        let r := present_renderbuffer e env.gl
        some (true, { env with gl := r.1 }, q ++ r.2)
      else if env.fullscreen_layer ≠ 0 then
        -- a different layer covers the screen: skip presentation, succeed
        some (true, env, q)
      else
        -- slow path: read the pixels back to RAM and composite
        let env1 : PresentEnv := { env with pixel_vec_allocs := env.pixel_vec_allocs + 1 }
        let r := read_renderbuffer env1.gl
        some (true,
          { env1 with gl := r.gl, composited := env1.composited ++ [(drawable, r.width, r.height)] },
          q ++ r.events)
  else none

/-- An EAGLDrawable (always a CAEAGLLayer in practice): its object identity,
the kEAGLDrawablePropertyColorFormat value of its drawableProperties, and the
layer's own size, which eagl.rs deliberately does NOT consult (the FIXME at
line 163). -/
structure Drawable where
  ident : Nat
  format : String
  layer_width : Nat
  layer_height : Nat
deriving DecidableEq, Repr

/-- Environment of a `renderbufferStorage:fromDrawable:` call: the context's
binding table, the GL state, ghost retain/release logs of the object
runtime, the host window's unrotated scale-hacked size
(`window.size_unrotated_scalehacked()`), and a ghost count of the
unhandled-format warning log. -/
structure StorageEnv where
  bindings : List (Nat × Nat)
  gl : GLState
  retained : List Nat
  released : List Nat
  window_width : Nat
  window_height : Nat
  warnings : Nat
deriving DecidableEq, Repr

/-- The body of `renderbufferStorage:fromDrawable:` after its asserts
(eagl.rs lines 143-185): look at the drawable's color-format property (only
to decide whether to log a warning; the internal format used is always
RGBA8), allocate storage for the bound renderbuffer at the host window's
unrotated scale-hacked size, query the bound renderbuffer name, retain the
drawable and install the binding, releasing a previously bound drawable. -/
def rbStorageOk (d : Drawable) (env : StorageEnv) : StorageEnv × List GLEvent :=
  let warned := if d.format = kEAGLColorFormatRGBA8 ∨ d.format = kEAGLColorFormatRGB565 then 0 else 1
  let width := env.window_width
  let height := env.window_height
  -- RenderbufferStorageOES allocates storage for the bound renderbuffer
  let gl1 : GLState := { env.gl with renderbuffer_width := width, renderbuffer_height := height }
  let renderbuffer := gl1.renderbuffer_binding
  let retained1 := env.retained ++ [d.ident]
  let old := lookupBinding renderbuffer env.bindings
  let bindings1 := (renderbuffer, d.ident) :: removeKey renderbuffer env.bindings
  let released1 := match old with
    | some old_drawable => env.released ++ [old_drawable]
    | none => env.released
  ({ env with
      bindings := bindings1
      gl := gl1
      retained := retained1
      released := released1
      warnings := env.warnings + warned },
   [GLEvent.RenderbufferStorage GL_RGBA8_OES width height,
    GLEvent.GetIntegerv GL_RENDERBUFFER_BINDING_OES])

/-- renderbufferStorage:fromDrawable: (eagl.rs lines 137-186).  `none` models
the aborts of `assert!(drawable != nil)` (line 139) and
`assert!(target == RENDERBUFFER_OES)` (line 141); a nil drawable is the
`none` argument. -/
def renderbufferStorage (target : Nat) (drawable : Option Drawable) (env : StorageEnv) :
    Option (Bool × StorageEnv × List GLEvent) :=
  match drawable with
  | none => none
  | some d =>
    if target = GL_RENDERBUFFER_OES then
      let r := rbStorageOk d env
      some (true, r.1, r.2)
    else none

/-- dealloc (eagl.rs lines 128-135): take the whole binding table out of the
host object (leaving it empty) and release every drawable that was bound.
The final `dealloc_object` is the object runtime's storage reclamation and
does not touch the binding table. -/
def dealloc (env : StorageEnv) : StorageEnv :=
  { env with bindings := [], released := env.released ++ env.bindings.map Prod.snd }

/-! ## Context creation and the current-context bookkeeping -/

/-- The process-wide OpenGL ES framework state used by eagl.rs: the
per-thread logical current-context table (thread id ↦ context object), and
the native-current-owner marker `current_ctx_thread` (None = unknown). -/
structure OpenGLESFrameworkState where
  current_ctx_map : List (Nat × Nat)
  current_ctx_thread : Option Nat
deriving DecidableEq, Repr

/-- Environment of an `initWithAPI:` call: the framework state, which native
context is truly current on the calling thread, and the host object's
`gles_ctx` slot. -/
structure InitEnv where
  opengles : OpenGLESFrameworkState
  native_current : Option Nat
  gles_ctx : Option Nat
deriving DecidableEq, Repr

/-- initWithAPI: (eagl.rs lines 109-126).  `none` models the
`assert!(api == kEAGLRenderingAPIOpenGLES1)` abort.  `new_ctx` is the native
context produced by `create_gles1_ctx`.  The brand-new context is made
current (to read the driver info) and then `current_ctx_thread` is forced to
None so a later `sync_context` will switch back; the per-thread logical
table is not touched. -/
def initWithAPI (api : Nat) (new_ctx : Nat) (env : InitEnv) : Option InitEnv :=
  if api = kEAGLRenderingAPIOpenGLES1 then
    let env1 : InitEnv := { env with native_current := some new_ctx }
    let env2 : InitEnv := { env1 with opengles := { env1.opengles with current_ctx_thread := none } }
    some { env2 with gles_ctx := some new_ctx }
  else none

/-! ## Trace classifiers -/

/-- Is the event the window buffer swap?  (Everything else in a trace is a
GPU call.) -/
def isSwap : GLEvent → Bool
  | GLEvent.SwapWindow _ => true
  | _ => false

/-- Is the event a glReadPixels call? -/
def isReadPixels : GLEvent → Bool
  | GLEvent.ReadPixels _ _ => true
  | _ => false

/-- The suffix of a trace strictly after its first window swap. -/
def afterSwap : List GLEvent → List GLEvent
  | [] => []
  | a :: rest => if isSwap a then rest else afterSwap rest

/-- Check of one event for `swapsAtDefaultFb`: a swap must happen while the
default framebuffer (0) is bound. -/
def swapOkEv : GLEvent → Bool
  | GLEvent.SwapWindow fb => fb == 0
  | _ => true

/-- Every window swap in the trace happens while the default framebuffer is
bound. -/
def swapsAtDefaultFb (tr : List GLEvent) : Bool :=
  tr.all swapOkEv

/-! ## Sample concrete inputs (used by counterexamples and witnesses) -/

/-- A concrete GL state: matrix mode GL_MODELVIEW, renderbuffer 3 bound and
sized 320x480, framebuffer 0, texture 9, two-entry array/capability tables. -/
def sampleGL : GLState where
  renderbuffer_binding := 3
  framebuffer_binding := 0
  texture_binding_2d := 9
  array_buffer_binding := 4
  arrays_enabled := [true, false]
  capabilities_enabled := [false, true]
  matrix_mode := GL_MODELVIEW
  modelview_stack := [11]
  projection_stack := [12]
  texture_stack := [13]
  current_color := ⟨0, 0, 1, 1⟩
  viewport := (0, 0, 320, 480)
  clear_color := ⟨1, 0, 0, 1⟩
  vertex_array := ⟨4, 3, 5126, 0, 100⟩
  tex_coord_array := ⟨4, 2, 5126, 0, 200⟩
  blend_src := 770
  blend_dst := 771
  renderbuffer_width := 320
  renderbuffer_height := 480
  next_name := 50
  read_pixels_count := 0

/-- A concrete quad-drawing effect that clobbers every touchable slot. -/
def sampleEffect : FrameEffect where
  matrix_mode' := GL_PROJECTION
  mv_top := 21
  p_top := 22
  t_top := 23
  color' := ⟨1, 1, 1, 1⟩
  viewport' := (0, 0, 640, 960)
  clear_color' := ⟨0, 0, 0, 0⟩
  array_buffer' := 7
  vertex_array' := ⟨7, 2, 5120, 8, 300⟩
  tex_coord_array' := ⟨7, 2, 5120, 8, 400⟩
  blend_src' := 1
  blend_dst' := 0
  texture_2d' := 51
  arrays' := [false, true]
  capabilities' := [true, true]

def sampleDrawableA : Drawable := ⟨10, "RGBA8", 320, 480⟩

def sampleDrawableB : Drawable := ⟨11, "RGB565", 320, 480⟩

def sampleStorageEnv : StorageEnv where
  bindings := []
  gl := sampleGL
  retained := []
  released := []
  window_width := 320
  window_height := 480
  warnings := 0

/-- Present environment where renderbuffer 3 is bound to layer 7, which is
the fullscreen layer. -/
def samplePresentEnvFast : PresentEnv where
  bindings := [(3, 7)]
  fullscreen_layer := 7
  gl := sampleGL
  pixel_vec_allocs := 0
  composited := []

/-- Present environment where renderbuffer 3 is bound to layer 7 but a
different layer 8 is fullscreen. -/
def samplePresentEnvSkip : PresentEnv where
  bindings := [(3, 7)]
  fullscreen_layer := 8
  gl := sampleGL
  pixel_vec_allocs := 0
  composited := []

/-- Present environment with an empty binding table. -/
def samplePresentEnvUnbound : PresentEnv where
  bindings := []
  fullscreen_layer := 0
  gl := sampleGL
  pixel_vec_allocs := 0
  composited := []

/-! ## Helper lemmas about the traces -/

theorem disableClientArraysTrace_events (n : Nat) :
    ∀ a ∈ disableClientArraysTrace n, isSwap a = false ∧ isReadPixels a = false := by
  intro a ha
  simp only [disableClientArraysTrace, List.mem_flatMap, List.mem_range, List.mem_cons,
    List.not_mem_nil, or_false] at ha
  obtain ⟨i, -, h⟩ := ha
  rcases h with rfl | rfl <;> exact ⟨rfl, rfl⟩

theorem disableCapabilitiesTrace_events (n : Nat) :
    ∀ a ∈ disableCapabilitiesTrace n, isSwap a = false ∧ isReadPixels a = false := by
  intro a ha
  simp only [disableCapabilitiesTrace, List.mem_flatMap, List.mem_range, List.mem_cons,
    List.not_mem_nil, or_false] at ha
  obtain ⟨i, -, h⟩ := ha
  rcases h with rfl | rfl <;> exact ⟨rfl, rfl⟩

theorem restoreClientArraysTrace_events (old : List Bool) :
    ∀ a ∈ restoreClientArraysTrace old, isSwap a = false ∧ isReadPixels a = false := by
  intro a ha
  simp only [restoreClientArraysTrace, List.mem_map] at ha
  obtain ⟨⟨i, b⟩, -, rfl⟩ := ha
  cases b <;> exact ⟨rfl, rfl⟩

theorem restoreCapabilitiesTrace_events (old : List Bool) :
    ∀ a ∈ restoreCapabilitiesTrace old, isSwap a = false ∧ isReadPixels a = false := by
  intro a ha
  simp only [restoreCapabilitiesTrace, List.mem_map] at ha
  obtain ⟨⟨i, b⟩, -, rfl⟩ := ha
  cases b <;> exact ⟨rfl, rfl⟩

theorem copyToTexturePhase_events (s : GLState) :
    ∀ a ∈ (copyToTexturePhase s).2.2, isSwap a = false ∧ isReadPixels a = false := by
  intro a ha
  simp only [copyToTexturePhase, List.mem_cons, List.not_mem_nil, or_false] at ha
  rcases ha with rfl|rfl|rfl|rfl|rfl|rfl|rfl|rfl|rfl|rfl|rfl|rfl|rfl <;> exact ⟨rfl, rfl⟩

theorem backupPhase_events (s : GLState) :
    ∀ a ∈ (backupPhase s).2.2, isSwap a = false ∧ isReadPixels a = false := by
  intro a ha
  simp only [backupPhase, List.mem_append, List.mem_cons, List.not_mem_nil, or_false] at ha
  rcases ha with (h | h) | h
  · exact disableClientArraysTrace_events _ a h
  · exact disableCapabilitiesTrace_events _ a h
  · rcases h with rfl|rfl|rfl|rfl|rfl|rfl|rfl|rfl|rfl|rfl|rfl|rfl|rfl|rfl|rfl|rfl|rfl|rfl|rfl|rfl|rfl|rfl|rfl|rfl|rfl|rfl|rfl <;>
      exact ⟨rfl, rfl⟩

theorem restorePhase_events (snap : Snapshot) (s : GLState) :
    ∀ a ∈ (restorePhase snap s).2, isSwap a = false ∧ isReadPixels a = false := by
  intro a ha
  simp only [restorePhase, List.mem_append, List.mem_cons, List.not_mem_nil, or_false] at ha
  rcases ha with (h | h) | h
  · exact restoreClientArraysTrace_events _ a h
  · exact restoreCapabilitiesTrace_events _ a h
  · rcases h with rfl|rfl|rfl|rfl|rfl|rfl|rfl|rfl|rfl|rfl|rfl|rfl|rfl|rfl|rfl|rfl <;>
      exact ⟨rfl, rfl⟩

theorem afterSwap_append_of_no_swap (l r : List GLEvent)
    (h : ∀ a ∈ l, isSwap a = false) : afterSwap (l ++ r) = afterSwap r := by
  induction l with
  | nil => rfl
  | cons a rest ih =>
    have ha : isSwap a = false := h a (List.mem_cons_self a rest)
    simp only [List.cons_append, afterSwap, ha, Bool.false_eq_true, if_false]
    exact ih (fun b hb => h b (List.mem_cons_of_mem a hb))

theorem swapOkEv_of_not_swap (a : GLEvent) (h : isSwap a = false) : swapOkEv a = true := by
  cases a <;> simp_all [isSwap, swapOkEv]

theorem all_swapOk_of_no_swap (l : List GLEvent)
    (h : ∀ a ∈ l, isSwap a = false) : l.all swapOkEv = true := by
  rw [List.all_eq_true]
  intro a ha
  exact swapOkEv_of_not_swap a (h a ha)

theorem all_not_rp_of_no_rp (l : List GLEvent)
    (h : ∀ a ∈ l, isReadPixels a = false) : l.all (fun ev => !isReadPixels ev) = true := by
  rw [List.all_eq_true]
  intro a ha
  simp [h a ha]

/-- The full trace of present_renderbuffer contains no glReadPixels call
(the fast path copies on the GPU via glCopyTexImage2D instead). -/
theorem present_renderbuffer_no_rp (e : FrameEffect) (s : GLState) :
    ∀ a ∈ (present_renderbuffer e s).2, isReadPixels a = false := by
  intro a ha
  simp only [present_renderbuffer, List.mem_append, List.mem_cons, List.not_mem_nil, or_false] at ha
  rcases ha with (((h | h) | h) | h) | h
  · exact (copyToTexturePhase_events s a h).2
  · exact (backupPhase_events _ a h).2
  · rcases h with rfl | rfl <;> rfl
  · exact (restorePhase_events _ _ a h).2
  · rcases h with rfl | rfl | rfl | rfl <;> rfl

/-! ## Projection facts about the phases (which slots each phase leaves alone) -/

theorem copyToTexturePhase_rp (s : GLState) :
    (copyToTexturePhase s).1.read_pixels_count = s.read_pixels_count := rfl

theorem backupPhase_rp (s : GLState) :
    (backupPhase s).1.read_pixels_count = s.read_pixels_count := rfl

theorem applyFrameEffect_rp (e : FrameEffect) (s : GLState) :
    (applyFrameEffect e s).read_pixels_count = s.read_pixels_count := rfl

theorem restorePhase_rp (snap : Snapshot) (s : GLState) :
    (restorePhase snap s).1.read_pixels_count = s.read_pixels_count := rfl

/-- present_renderbuffer never issues a glReadPixels call, so the ghost
read-back counter is unchanged. -/
theorem present_renderbuffer_rp (e : FrameEffect) (s : GLState) :
    (present_renderbuffer e s).1.read_pixels_count = s.read_pixels_count := rfl

theorem restorePhase_fb (snap : Snapshot) (s : GLState) :
    (restorePhase snap s).1.framebuffer_binding = s.framebuffer_binding := rfl

theorem applyFrameEffect_fb (e : FrameEffect) (s : GLState) :
    (applyFrameEffect e s).framebuffer_binding = s.framebuffer_binding := rfl

theorem backupPhase_fb (s : GLState) :
    (backupPhase s).1.framebuffer_binding = s.framebuffer_binding := rfl

/-- Deleting the temporary framebuffer at the end of the copy phase resets
the framebuffer binding to the default framebuffer 0. -/
theorem copyToTexturePhase_fb (s : GLState) :
    (copyToTexturePhase s).1.framebuffer_binding = 0 := by
  simp [copyToTexturePhase]

/-! ## Claim theorems -/

/-- C1: evaluation of the state-snapshotting presentation routine at a
concrete failing input.  Starting from matrix mode GL_MODELVIEW, after
present_renderbuffer returns the matrix mode is GL_TEXTURE, not the saved
GL_MODELVIEW: the source writes the saved mode back BEFORE the pop loop
(eagl.rs lines 517-521), which then leaves GL_TEXTURE as the mode, so the
claim that every snapshot-enumerated slot (including the matrix mode) equals
its pre-presentation value is violated by the code.  Every other
snapshot-enumerated slot IS restored at this input, confirming the bug is
exactly the dead-stored matrix mode. -/
theorem present_renderbuffer_matrix_mode_not_restored :
    (present_renderbuffer sampleEffect sampleGL).1.matrix_mode = GL_TEXTURE
    ∧ sampleGL.matrix_mode = GL_MODELVIEW
    ∧ GL_MODELVIEW ≠ GL_TEXTURE
    ∧ (present_renderbuffer sampleEffect sampleGL).1.arrays_enabled = sampleGL.arrays_enabled
    ∧ (present_renderbuffer sampleEffect sampleGL).1.capabilities_enabled = sampleGL.capabilities_enabled
    ∧ (present_renderbuffer sampleEffect sampleGL).1.modelview_stack = sampleGL.modelview_stack
    ∧ (present_renderbuffer sampleEffect sampleGL).1.projection_stack = sampleGL.projection_stack
    ∧ (present_renderbuffer sampleEffect sampleGL).1.texture_stack = sampleGL.texture_stack
    ∧ (present_renderbuffer sampleEffect sampleGL).1.current_color = sampleGL.current_color
    ∧ (present_renderbuffer sampleEffect sampleGL).1.viewport = sampleGL.viewport
    ∧ (present_renderbuffer sampleEffect sampleGL).1.clear_color = sampleGL.clear_color
    ∧ (present_renderbuffer sampleEffect sampleGL).1.array_buffer_binding = sampleGL.array_buffer_binding
    ∧ (present_renderbuffer sampleEffect sampleGL).1.vertex_array = sampleGL.vertex_array
    ∧ (present_renderbuffer sampleEffect sampleGL).1.tex_coord_array = sampleGL.tex_coord_array
    ∧ (present_renderbuffer sampleEffect sampleGL).1.blend_src = sampleGL.blend_src
    ∧ (present_renderbuffer sampleEffect sampleGL).1.blend_dst = sampleGL.blend_dst
    ∧ (present_renderbuffer sampleEffect sampleGL).1.texture_binding_2d = sampleGL.texture_binding_2d
    ∧ (present_renderbuffer sampleEffect sampleGL).1.framebuffer_binding = sampleGL.framebuffer_binding
    ∧ (present_renderbuffer sampleEffect sampleGL).1.renderbuffer_binding = sampleGL.renderbuffer_binding := by
  decide

/-- The guest-visible boolean of presentRenderbuffer: is exactly "a drawable
is bound for the currently bound renderbuffer name" (the call returns in all
cases once the target assert passes). -/
theorem presentRenderbuffer_map_fst (e : FrameEffect) (env : PresentEnv) :
    (presentRenderbuffer GL_RENDERBUFFER_OES e env).map (fun r => r.1) =
      some (lookupBinding env.gl.renderbuffer_binding env.bindings).isSome := by
  rcases h : lookupBinding env.gl.renderbuffer_binding env.bindings with _ | d
  · simp [presentRenderbuffer, h]
  · simp only [presentRenderbuffer, h, eq_self_iff_true, if_true]
    split
    · simp
    · split <;> simp

/-- C2: presentRenderbuffer: returns false exactly when the binding table
has no drawable for the renderbuffer name currently bound in the
GL_RENDERBUFFER_BINDING_OES slot (and returns true in every other case,
including the skipped case), and in the unbound case the environment is
returned unchanged with only the binding query issued (no side effects). -/
theorem presentRenderbuffer_false_iff_unbound (e : FrameEffect) (env : PresentEnv) :
    ((presentRenderbuffer GL_RENDERBUFFER_OES e env).map (fun r => r.1) =
        some (lookupBinding env.gl.renderbuffer_binding env.bindings).isSome)
    ∧ (presentRenderbuffer GL_RENDERBUFFER_OES e env =
          some (false, env, [GLEvent.GetIntegerv GL_RENDERBUFFER_BINDING_OES])
        ↔ lookupBinding env.gl.renderbuffer_binding env.bindings = none) := by
  refine ⟨presentRenderbuffer_map_fst e env, ?_, ?_⟩
  · intro heq
    rcases h : lookupBinding env.gl.renderbuffer_binding env.bindings with _ | d
    · rfl
    · have h1 := presentRenderbuffer_map_fst e env
      rw [heq, h] at h1
      simp at h1
  · intro h
    simp [presentRenderbuffer, h]

/-- C3 counterexample: calling renderbufferStorage:fromDrawable: with the
supported target and a nil drawable aborts (assertion failure, modelled as
none); it does not return the boolean false as the claim states. -/
theorem renderbufferStorage_nil_aborts_cex :
    renderbufferStorage GL_RENDERBUFFER_OES none sampleStorageEnv = none := rfl

/-- C3 amended: renderbufferStorage:fromDrawable: asserts (aborts) on a
nil/absent drawable rather than returning false, asserts that the target
kind equals the one supported native render-target type
(GL_RENDERBUFFER_OES), and returns true whenever it returns at all. -/
theorem renderbufferStorage_asserts (t : Nat) (d : Drawable) (env : StorageEnv)
    (h : t ≠ GL_RENDERBUFFER_OES) :
    renderbufferStorage t none env = none
    ∧ renderbufferStorage t (some d) env = none
    ∧ renderbufferStorage GL_RENDERBUFFER_OES none env = none
    ∧ (renderbufferStorage GL_RENDERBUFFER_OES (some d) env).map (fun r => r.1) = some true := by
  refine ⟨rfl, ?_, rfl, ?_⟩
  · simp [renderbufferStorage, h]
  · simp [renderbufferStorage]

theorem renderbufferStorage_asserts_witness :
    renderbufferStorage 0 none sampleStorageEnv = none
    ∧ renderbufferStorage 0 (some sampleDrawableA) sampleStorageEnv = none
    ∧ renderbufferStorage GL_RENDERBUFFER_OES none sampleStorageEnv = none
    ∧ (renderbufferStorage GL_RENDERBUFFER_OES (some sampleDrawableA) sampleStorageEnv).map
        (fun r => r.1) = some true :=
  renderbufferStorage_asserts 0 sampleDrawableA sampleStorageEnv (by decide)

/-- C7: dealloc empties the binding table and releases each bound drawable
exactly once; a second dealloc on the resulting state observes an empty
binding table and is a no-op (in particular it releases nothing further), so
even under double invocation each previously-bound drawable is released
exactly once. -/
theorem dealloc_idempotent_releases_once (env : StorageEnv) (x : Nat) :
    (dealloc env).bindings = []
    ∧ dealloc (dealloc env) = dealloc env
    ∧ (dealloc (dealloc env)).released.count x
        = env.released.count x + (env.bindings.map Prod.snd).count x := by
  refine ⟨rfl, ?_, ?_⟩
  · simp [dealloc]
  · simp [dealloc, List.count_append]

theorem removeKey_fst_count (k : Nat) (l : List (Nat × Nat)) :
    ((removeKey k l).map Prod.fst).count k = 0 := by
  induction l with
  | nil => rfl
  | cons p rest ih =>
    by_cases h : p.1 = k
    · simpa [removeKey, List.filter_cons, h] using ih
    · simpa [removeKey, List.filter_cons, h, List.count_cons] using ih

/-- C4: in a context's binding table a renderbuffer name maps to at most one
drawable: with renderbuffer T bound and initially unbound in the table,
binding T to drawable A and then to drawable B releases A exactly once,
retains B exactly once (and never releases B), a lookup of T afterwards
yields B, and T occurs exactly once as a key of the table. -/
theorem binding_replacement_retain_release (T : Nat) (dA dB : Drawable) (env : StorageEnv)
    (hT : env.gl.renderbuffer_binding = T)
    (hfree : lookupBinding T env.bindings = none)
    (hAB : dA.ident ≠ dB.ident) :
    lookupBinding T ((rbStorageOk dB (rbStorageOk dA env).1).1).bindings = some dB.ident
    ∧ ((rbStorageOk dB (rbStorageOk dA env).1).1).released.count dA.ident
        = env.released.count dA.ident + 1
    ∧ ((rbStorageOk dB (rbStorageOk dA env).1).1).retained.count dB.ident
        = env.retained.count dB.ident + 1
    ∧ ((rbStorageOk dB (rbStorageOk dA env).1).1).released.count dB.ident
        = env.released.count dB.ident
    ∧ ((((rbStorageOk dB (rbStorageOk dA env).1).1).bindings).map Prod.fst).count T = 1 := by
  have h6 : (rbStorageOk dB (rbStorageOk dA env).1).1.bindings
      = (T, dB.ident) :: removeKey T ((T, dA.ident) :: removeKey T env.bindings) := by
    simp [rbStorageOk, lookupBinding, hT, hfree]
  have h7 : (rbStorageOk dB (rbStorageOk dA env).1).1.released
      = env.released ++ [dA.ident] := by
    simp [rbStorageOk, lookupBinding, hT, hfree]
  have h8 : (rbStorageOk dB (rbStorageOk dA env).1).1.retained
      = env.retained ++ [dA.ident] ++ [dB.ident] := by
    simp [rbStorageOk]
  refine ⟨?_, ?_, ?_, ?_, ?_⟩
  · rw [h6]
    simp [lookupBinding]
  · rw [h7]
    simp [List.count_append]
  · rw [h8]
    simp [List.count_append, List.count_cons, hAB, Ne.symm hAB]
  · rw [h7]
    simp [List.count_append, List.count_cons, hAB, Ne.symm hAB]
  · rw [h6]
    simpa [List.count_cons] using removeKey_fst_count T ((T, dA.ident) :: removeKey T env.bindings)

theorem binding_replacement_retain_release_witness :
    lookupBinding 3 ((rbStorageOk sampleDrawableB (rbStorageOk sampleDrawableA sampleStorageEnv).1).1).bindings
        = some sampleDrawableB.ident
    ∧ ((rbStorageOk sampleDrawableB (rbStorageOk sampleDrawableA sampleStorageEnv).1).1).released.count sampleDrawableA.ident
        = sampleStorageEnv.released.count sampleDrawableA.ident + 1
    ∧ ((rbStorageOk sampleDrawableB (rbStorageOk sampleDrawableA sampleStorageEnv).1).1).retained.count sampleDrawableB.ident
        = sampleStorageEnv.retained.count sampleDrawableB.ident + 1
    ∧ ((rbStorageOk sampleDrawableB (rbStorageOk sampleDrawableA sampleStorageEnv).1).1).released.count sampleDrawableB.ident
        = sampleStorageEnv.released.count sampleDrawableB.ident
    ∧ ((((rbStorageOk sampleDrawableB (rbStorageOk sampleDrawableA sampleStorageEnv).1).1).bindings).map Prod.fst).count 3 = 1 :=
  binding_replacement_retain_release 3 sampleDrawableA sampleDrawableB sampleStorageEnv rfl rfl (by decide)

/-- C5: when the bound drawable is the fullscreen layer, presentRenderbuffer
takes the fast path: it returns true, only the GL state changes (binding
table, pixel-buffer allocation count and composition log are untouched), the
ghost glReadPixels counter is unchanged, and the emitted trace contains no
glReadPixels call. -/
theorem fast_path_no_readback (e : FrameEffect) (env : PresentEnv) (d : Nat)
    (h1 : lookupBinding env.gl.renderbuffer_binding env.bindings = some d)
    (h2 : d = env.fullscreen_layer) :
    presentRenderbuffer GL_RENDERBUFFER_OES e env =
      some (true, { env with gl := (present_renderbuffer e env.gl).1 },
        GLEvent.GetIntegerv GL_RENDERBUFFER_BINDING_OES :: (present_renderbuffer e env.gl).2)
    ∧ (present_renderbuffer e env.gl).1.read_pixels_count = env.gl.read_pixels_count
    ∧ (GLEvent.GetIntegerv GL_RENDERBUFFER_BINDING_OES :: (present_renderbuffer e env.gl).2).all
        (fun ev => !isReadPixels ev) = true := by
  refine ⟨?_, present_renderbuffer_rp e env.gl, ?_⟩
  · simp [presentRenderbuffer, h1, h2]
  · rw [List.all_cons, all_not_rp_of_no_rp _ (present_renderbuffer_no_rp e env.gl)]
    rfl

theorem fast_path_no_readback_witness :
    presentRenderbuffer GL_RENDERBUFFER_OES sampleEffect samplePresentEnvFast =
      some (true, { samplePresentEnvFast with gl := (present_renderbuffer sampleEffect samplePresentEnvFast.gl).1 },
        GLEvent.GetIntegerv GL_RENDERBUFFER_BINDING_OES :: (present_renderbuffer sampleEffect samplePresentEnvFast.gl).2)
    ∧ (present_renderbuffer sampleEffect samplePresentEnvFast.gl).1.read_pixels_count
        = samplePresentEnvFast.gl.read_pixels_count
    ∧ (GLEvent.GetIntegerv GL_RENDERBUFFER_BINDING_OES :: (present_renderbuffer sampleEffect samplePresentEnvFast.gl).2).all
        (fun ev => !isReadPixels ev) = true :=
  fast_path_no_readback sampleEffect samplePresentEnvFast 7 (by decide) rfl

/-- C6: when some fullscreen layer exists and the bound drawable is a
different layer, presentRenderbuffer returns true and does no work: the
environment (GL state, binding table, pixel-buffer allocations, composition
log) is returned unchanged and the only event issued is the binding query
(the diagnostic log is host-side only). -/
theorem nonvisible_skip_no_work (e : FrameEffect) (env : PresentEnv) (d : Nat)
    (h1 : lookupBinding env.gl.renderbuffer_binding env.bindings = some d)
    (h2 : env.fullscreen_layer ≠ 0)
    (h3 : d ≠ env.fullscreen_layer) :
    presentRenderbuffer GL_RENDERBUFFER_OES e env =
      some (true, env, [GLEvent.GetIntegerv GL_RENDERBUFFER_BINDING_OES]) := by
  simp [presentRenderbuffer, h1, h2, h3]

theorem nonvisible_skip_no_work_witness :
    presentRenderbuffer GL_RENDERBUFFER_OES sampleEffect samplePresentEnvSkip =
      some (true, samplePresentEnvSkip, [GLEvent.GetIntegerv GL_RENDERBUFFER_BINDING_OES]) :=
  nonvisible_skip_no_work sampleEffect samplePresentEnvSkip 7 (by decide) (by decide) (by decide)

/-- C9: initWithAPI: (with the supported GLES1 api constant) makes the
brand-new native context current (to read driver info), then forces the
native-current-owner marker to None, stores the context in the host object,
and leaves the per-thread logical current-context table unchanged for every
thread. -/
theorem initWithAPI_hides_current_context_change (new_ctx : Nat) (env : InitEnv) :
    initWithAPI kEAGLRenderingAPIOpenGLES1 new_ctx env =
      some { opengles := { current_ctx_map := env.opengles.current_ctx_map,
                           current_ctx_thread := none },
             native_current := some new_ctx,
             gles_ctx := some new_ctx } := rfl

/-- C10: the width and height passed to the native renderbuffer-storage call
are the host window's unrotated scale-hacked size and the internal format is
always RGBA8; the drawable argument influences nothing but the
unhandled-format warning counter (in particular its own size and format are
never used for the storage dimensions, and any format other than RGBA8 or
RGB565 still gets RGBA8 storage, with a warning). -/
theorem renderbufferStorage_dims_from_window (d : Drawable) (env : StorageEnv)
    (fmt : String) (w h : Nat) :
    (rbStorageOk d env).2 =
      [GLEvent.RenderbufferStorage GL_RGBA8_OES env.window_width env.window_height,
       GLEvent.GetIntegerv GL_RENDERBUFFER_BINDING_OES]
    ∧ (rbStorageOk d env).1.gl.renderbuffer_width = env.window_width
    ∧ (rbStorageOk d env).1.gl.renderbuffer_height = env.window_height
    ∧ (rbStorageOk ⟨d.ident, fmt, w, h⟩ env).1.bindings = (rbStorageOk d env).1.bindings
    ∧ (rbStorageOk ⟨d.ident, fmt, w, h⟩ env).1.gl = (rbStorageOk d env).1.gl
    ∧ (rbStorageOk ⟨d.ident, fmt, w, h⟩ env).1.retained = (rbStorageOk d env).1.retained
    ∧ (rbStorageOk ⟨d.ident, fmt, w, h⟩ env).1.released = (rbStorageOk d env).1.released
    ∧ (rbStorageOk d env).1.warnings =
        env.warnings +
          (if d.format = kEAGLColorFormatRGBA8 ∨ d.format = kEAGLColorFormatRGB565 then 0 else 1) :=
  ⟨rfl, rfl, rfl, rfl, rfl, rfl, rfl, rfl⟩

/-- C8 counterexample: at a concrete input the events after the window swap
are the texture-binding restore, the framebuffer-binding restore and the
error-flag query — three GPU calls — so the swap is not the last GPU-visible
action of the presentation. -/
theorem swap_not_last_gl_call_cex :
    afterSwap ((present_renderbuffer sampleEffect sampleGL).2) =
      [GLEvent.BindTexture 9, GLEvent.BindFramebufferOES 0, GLEvent.GetError]
    ∧ afterSwap ((present_renderbuffer sampleEffect sampleGL).2) ≠ [] := by
  decide

/-- C8 amended: in present_renderbuffer the window swap does happen only
after the framebuffer binding has been reset to the default framebuffer
(every swap in the trace occurs with framebuffer binding 0, the app's saved
binding being re-bound only later), but the swap is NOT the last GPU-visible
action: it is followed by exactly the texture-binding restore, the
framebuffer-binding restore and the error query. -/
theorem copyToTexturePhase_no_swap (s : GLState) :
    ∀ a ∈ (copyToTexturePhase s).2.2, isSwap a = false :=
  fun a ha => (copyToTexturePhase_events s a ha).1

theorem backupPhase_no_swap (s : GLState) :
    ∀ a ∈ (backupPhase s).2.2, isSwap a = false :=
  fun a ha => (backupPhase_events s a ha).1

theorem restorePhase_no_swap (snap : Snapshot) (s : GLState) :
    ∀ a ∈ (restorePhase snap s).2, isSwap a = false :=
  fun a ha => (restorePhase_events snap s a ha).1

theorem drawDelete_no_swap (x : Nat) :
    ∀ a ∈ [GLEvent.DrawFrame, GLEvent.DeleteTextures x], isSwap a = false := by
  intro a ha
  simp only [List.mem_cons, List.not_mem_nil, or_false] at ha
  rcases ha with rfl | rfl <;> rfl

theorem copyToTexturePhase_swapOk (s : GLState) :
    (copyToTexturePhase s).2.2.all swapOkEv = true :=
  all_swapOk_of_no_swap _ (copyToTexturePhase_no_swap s)

theorem backupPhase_swapOk (s : GLState) :
    (backupPhase s).2.2.all swapOkEv = true :=
  all_swapOk_of_no_swap _ (backupPhase_no_swap s)

theorem restorePhase_swapOk (snap : Snapshot) (s : GLState) :
    (restorePhase snap s).2.all swapOkEv = true :=
  all_swapOk_of_no_swap _ (restorePhase_no_swap snap s)

theorem swap_after_default_fb_rebind (e : FrameEffect) (s : GLState) :
    swapsAtDefaultFb ((present_renderbuffer e s).2) = true
    ∧ afterSwap ((present_renderbuffer e s).2) =
        [GLEvent.BindTexture s.texture_binding_2d,
         GLEvent.BindFramebufferOES s.framebuffer_binding,
         GLEvent.GetError] := by
  simp only [present_renderbuffer, restorePhase_fb, applyFrameEffect_fb, backupPhase_fb,
    copyToTexturePhase_fb]
  constructor
  · simp [swapsAtDefaultFb, copyToTexturePhase_swapOk, backupPhase_swapOk,
      restorePhase_swapOk, swapOkEv]
  · simp only [List.append_assoc]
    rw [afterSwap_append_of_no_swap _ _ (copyToTexturePhase_no_swap s),
       afterSwap_append_of_no_swap _ _ (backupPhase_no_swap _),
       afterSwap_append_of_no_swap _ _ (drawDelete_no_swap _),
       afterSwap_append_of_no_swap _ _ (restorePhase_no_swap _ _)]
    simp [afterSwap, isSwap]
